import Mathlib

set_option maxHeartbeats 1000000
set_option autoImplicit false

/-!
Shallow embedding of the Biomechanics Tutor session controller (`app.py`).

The dataset is a list of `QuestionRow` records (one per CSV row, after the
load-time processing: `correct_option` coerced to a nullable integer).
Missing / NaN cells are modelled as `none`; numeric cells are modelled as
rationals (`Option ℚ`, with `none` standing for NaN or a missing value, for
which every Python comparison returns `False`).  The reactive values of
`server` form a `SessionState`; each event handler becomes a function from
state to state, returning the emitted notifications as data.  A handler that
raises an uncaught Python exception is modelled as `Except.error` with the
exception text.  The `random.shuffle` call is modelled by quantifying over
permutations of the unshuffled list.
-/

/-- One row of `Master_questions.csv` after load-time processing.  `«section»`
is `none` when the cell is NaN; `correct_option` is the nullable integer
produced by `pd.to_numeric(...).astype("Int64")`. -/
structure QuestionRow where
  «section» : Option String
  question_number : String
  main_question : String
  sub_question : String
  full_question : String
  image_url : Option String
  solution : Option String
  option_1 : Option String
  option_2 : Option String
  option_3 : Option String
  option_4 : Option String
  feedback_1 : String
  feedback_2 : String
  feedback_3 : String
  feedback_4 : String
  correct_option : Option Int
  min_value : Option ℚ
  max_value : Option ℚ
  units : Option String
deriving DecidableEq

/-- Access `option_{j+1}`, the four option-text columns. -/
def optionCol (r : QuestionRow) : Fin 4 → Option String
  | 0 => r.option_1
  | 1 => r.option_2
  | 2 => r.option_3
  | 3 => r.option_4

/-- Access `feedback_{j+1}`, the four feedback columns. -/
def feedbackCol (r : QuestionRow) : Fin 4 → String
  | 0 => r.feedback_1
  | 1 => r.feedback_2
  | 2 => r.feedback_3
  | 3 => r.feedback_4

/-- Dynamic column access `row[f"feedback_{k}"]` for a 1-based index `k`:
`none` models the `KeyError` a Python lookup of a non-existent column raises. -/
def getFeedback (r : QuestionRow) (k : Nat) : Option String :=
  match k with
  | 1 => some r.feedback_1
  | 2 => some r.feedback_2
  | 3 => some r.feedback_3
  | 4 => some r.feedback_4
  | _ => none

/-- One entry of the `options` list built in `main_content`: the dict holding
the displayed content, its feedback, its 0-based display-build index, its
1-based `original_index`, and the stored `is_correct` value (which is
`pd.NA`, i.e. `none`, when `correct_option` is missing). -/
structure OptionView where
  option_text : Option String
  feedback : String
  index : Nat
  original_index : Nat
  is_correct : Option Bool
deriving DecidableEq

/-- A notification emitted through `show_new_notification`. -/
structure Notif where
  message : String
  duration : Nat
  ntype : String
deriving DecidableEq

/-- The reactive values owned by `server` that the claims are about. -/
structure SessionState where
  current_order : List OptionView
  current_section : String
  current_question : String
  current_subq : Nat
  show_solution : Bool
  feedback_text : String
  current_answer : Option ℚ
  current_units : String
deriving DecidableEq

/-- `reset_state` in `server`. -/
def reset_state (st : SessionState) : SessionState :=
  { st with current_subq := 0, show_solution := false, feedback_text := "",
            current_answer := none, current_units := "Select units" }

/-- `pandas.unique` / `drop_duplicates` order: keep the first occurrence of
each value, in first-seen order (auxiliary, with the set of already-seen
values as an accumulator). -/
def uniqueFirstAux (seen : List String) : List String → List String
  | [] => []
  | x :: xs =>
    if x ∈ seen then uniqueFirstAux seen xs
    else x :: uniqueFirstAux (x :: seen) xs

/-- `pandas.unique`: distinct values in first-seen order. -/
def uniqueFirst (l : List String) : List String :=
  uniqueFirstAux [] l

/-- The `sections` list computed at load time:
`df["section"].dropna().astype(str).unique().tolist()`. -/
def sections (df : List QuestionRow) : List String :=
  uniqueFirst (df.filterMap (fun r => r.«section»))

/-- `df.drop_duplicates("question_number")` restricted to what the section
observer needs: keep the first row for each `question_number`. -/
def dropDupByQn (seen : List String) : List QuestionRow → List QuestionRow
  | [] => []
  | r :: rs =>
    if r.question_number ∈ seen then dropDupByQn seen rs
    else r :: dropDupByQn (r.question_number :: seen) rs

/-- The section-navigation observer (`@reactive.event(input.section_nav)`):
if the selected name is a known section, set the section, clear the question,
reset downstream state, and set the question to the first `main_question` of
the section rows (via `drop_duplicates("question_number")`) when any exist. -/
def selectSection (df : List QuestionRow) (st : SessionState) (selected : String) :
    SessionState :=
  if selected ∈ sections df then
    let st1 := reset_state { st with current_section := selected, current_question := "" }
    let section_questions := df.filter (fun r => r.«section» == some selected)
    match dropDupByQn [] section_questions with
    | [] => st1
    | r :: _ => { st1 with current_question := r.main_question }
  else st

/-- The row filter
`df[(df["section"] == current_section()) & (df["main_question"] == current_question())]`. -/
def qData (df : List QuestionRow) (sec q : String) : List QuestionRow :=
  df.filter (fun r => r.«section» == some sec && r.main_question == q)

/-- `list(q_data["sub_question"].unique())`. -/
def subQuestionsOf (q_data : List QuestionRow) : List String :=
  uniqueFirst (q_data.map (fun r => r.sub_question))

/-- Python `str.strip().lower()`: drop whitespace from both ends, then map
ASCII letters to lower case (character-level model of the CPython calls). -/
def pyStripLower (s : String) : String :=
  String.mk
    (((s.data.dropWhile Char.isWhitespace).reverse.dropWhile Char.isWhitespace).reverse.map
      Char.toLower)

/-- The blank-option filter in `main_content`:
`pd.isna(option_text) or str(option_text).strip().lower() in ("", "nan", "none")`. -/
def isBlankOption : Option String → Bool
  | none => true
  | some s =>
    (pyStripLower s == "") || (pyStripLower s == "nan") || (pyStripLower s == "none")

/-- The option dict appended for column `j` in `main_content`. -/
def mkOptionView (r : QuestionRow) (j : Fin 4) : OptionView :=
  { option_text := optionCol r j
    feedback := feedbackCol r j
    index := j.1
    original_index := j.1 + 1
    is_correct := r.correct_option.map (fun c => c == ((j.1 : Int) + 1)) }

/-- The `options` list `main_content` builds for the current step before the
`random.shuffle` call: columns 1..4 in order, blanks skipped. -/
def buildOptions (r : QuestionRow) : List OptionView :=
  (List.finRange 4).filterMap (fun j =>
    if isBlankOption (optionCol r j) then none else some (mkOptionView r j))

/-- The option-click handler created by `create_option_observer(sub_q, opt)`.
`Except.error` models an uncaught Python exception: a `KeyError` from a
dynamic `feedback_{k}` column lookup with `k` outside 1..4, an `IndexError`
from `iloc[0]` on an empty frame, and the `TypeError` Python raises when the
`if is_correct and ...` branch forces `pd.NA` (a missing `correct_option`)
to a boolean. -/
def selectOption (df : List QuestionRow) (st : SessionState) (sub_q opt : Nat) :
    Except String (SessionState × List Notif) :=
  let q_data := qData df st.current_section st.current_question
  let sub_questions := subQuestionsOf q_data
  match sub_questions[sub_q]? with
  | none => .ok (st, [])
  | some sq_name =>
    match q_data.filter (fun r => r.sub_question == sq_name) with
    | [] => .error "IndexError: single positional indexer is out-of-bounds"
    | row :: _ =>
      match st.current_order[opt]? with
      | none => .ok (st, [])
      | some clicked =>
        match getFeedback row clicked.original_index with
        | none => .error "KeyError"
        | some feedback_message =>
          match row.correct_option with
          | none => .error "TypeError: boolean value of NA is ambiguous"
          | some c =>
            if (clicked.original_index : Int) = c then
              if st.current_subq < sub_questions.length - 1 then
                .ok ({ st with current_subq := st.current_subq + 1 },
                  [⟨"Correct! Moving to next step.", 3, "message"⟩])
              else
                .ok (st, [⟨"Correct! Please enter your final answer.", 3, "message"⟩])
            else
              .ok (st, [⟨feedback_message, 5, "warning"⟩])

/-- The registration loop `for i in range(10): for j in range(4):
create_option_observer(i, j)`: the set of (step, option) pairs that have an
observer at all. -/
def registeredObserverKeys : List (Nat × Nat) :=
  (List.range 10).flatMap (fun i => (List.range 4).map (fun j => (i, j)))

/-- Dispatch of a click on button `opt_{i}_{j}`: only registered observers
run; a click on an unregistered button id reaches no handler, so the state
is untouched and nothing is emitted. -/
def handleOptionClick (df : List QuestionRow) (st : SessionState) (i j : Nat) :
    Except String (SessionState × List Notif) :=
  if (i, j) ∈ registeredObserverKeys then selectOption df st i j
  else .ok (st, [])

/-- A Python chained comparison `a <= b` on possibly-NaN floats: any
comparison with NaN (or a missing value) is `False`. -/
def naLe : Option ℚ → Option ℚ → Bool
  | some a, some b => decide (a ≤ b)
  | _, _ => false

/-- `numeric_correct = correct_range[0] <= input.numeric_answer() <= correct_range[1]`
for the representative row of the current question. -/
def numericOk (row : QuestionRow) (v : ℚ) : Bool :=
  naLe row.min_value (some v) && naLe (some v) row.max_value

/-- `units_correct = selected_units == correct_units`; comparing a string to a
NaN cell is `False` in Python. -/
def unitsCheck (selected : String) (correct : Option String) : Bool :=
  match correct with
  | some u => selected == u
  | none => false

/-- The `check_numeric` observer (`@reactive.event(input.submit_answer)`):
no-op with feedback cleared when the numeric input is absent; otherwise the
submitted answer and units are stored, the representative row is looked up
(silent return when no row matches), and the range / units checks decide the
outcome. -/
def check_numeric (df : List QuestionRow) (st : SessionState)
    (numeric_answer : Option ℚ) (units_answer : String) :
    SessionState × List Notif :=
  match numeric_answer with
  | none => ({ st with feedback_text := "" }, [])
  | some v =>
    let st1 := { st with current_answer := some v, current_units := units_answer }
    match qData df st.current_section st.current_question with
    | [] => (st1, [])
    | row :: _ =>
      let numeric_correct := numericOk row v
      let units_correct := unitsCheck units_answer row.units
      if numeric_correct && units_correct then
        ({ st1 with show_solution := true,
                    feedback_text := "Correct! View the complete solution below." },
          [⟨"Correct! You can now view the complete solution.", 5, "message"⟩])
      else if numeric_correct && !units_correct then
        let msg := if units_answer == "Select units" then
            "Your numeric answer is correct! Please select the appropriate units."
          else
            "Your numeric answer is correct, but the units are incorrect. Try again!"
        ({ st1 with show_solution := false, feedback_text := msg },
          [⟨msg, 5, "warning"⟩])
      else
        ({ st1 with show_solution := false,
                    feedback_text := "Try again. Your answer is not within the acceptable range." },
          [⟨"Try again. Your answer is not within the acceptable range.", 5, "warning"⟩])

/-! ### Concrete sample data for witnesses and counterexamples -/

/-- A concrete dataset row with two valid options (columns 3 and 4 blank /
literal `" none "`), `correct_option = 2`, answer range `[9, 11]` m/s. -/
def sampleRow : QuestionRow :=
  { «section» := some "Kinematics"
    question_number := "1"
    main_question := "MQ1"
    sub_question := "SQ1"
    full_question := "A sprinter accelerates from rest."
    image_url := none
    solution := some "Worked solution"
    option_1 := some "A"
    option_2 := some "B"
    option_3 := none
    option_4 := some " none "
    feedback_1 := "fb1"
    feedback_2 := "fb2"
    feedback_3 := "fb3"
    feedback_4 := "fb4"
    correct_option := some 2
    min_value := some 9
    max_value := some 11
    units := some "m/s" }

/-- A session state positioned on `sampleRow`, after its step was entered. -/
def sampleState : SessionState :=
  { current_order := buildOptions sampleRow
    current_section := "Kinematics"
    current_question := "MQ1"
    current_subq := 0
    show_solution := false
    feedback_text := ""
    current_answer := none
    current_units := "Select units" }

/-! ### Helper lemmas -/

/-- Elements of `uniqueFirstAux seen l` come from `l`. -/
theorem mem_of_mem_uniqueFirstAux {seen l : List String} {s : String}
    (h : s ∈ uniqueFirstAux seen l) : s ∈ l := by
  induction l generalizing seen with
  | nil => simp [uniqueFirstAux] at h
  | cons x xs ih =>
    simp only [uniqueFirstAux] at h
    by_cases hx : x ∈ seen
    · simp only [if_pos hx] at h
      exact List.mem_cons_of_mem _ (ih h)
    · simp only [if_neg hx, List.mem_cons] at h
      rcases h with h | h
      · simp [h]
      · exact List.mem_cons_of_mem _ (ih h)

/-- Membership characterisation of the unshuffled option list: exactly the
non-blank columns, as the views `main_content` builds. -/
theorem mem_buildOptions_iff (r : QuestionRow) (o : OptionView) :
    o ∈ buildOptions r ↔
      ∃ j : Fin 4, isBlankOption (optionCol r j) = false ∧ o = mkOptionView r j := by
  simp only [buildOptions, List.mem_filterMap, List.mem_finRange, true_and]
  constructor
  · rintro ⟨j, hj⟩
    by_cases hb : isBlankOption (optionCol r j)
    · simp [hb] at hj
    · simp only [if_neg hb, Option.some.injEq] at hj
      exact ⟨j, by simp [hb], hj.symm⟩
  · rintro ⟨j, hb, rfl⟩
    exact ⟨j, by simp [hb]⟩

/-- Every view in the unshuffled option list has a 1-based `original_index`
between 1 and 4. -/
theorem original_index_mem_buildOptions {r : QuestionRow} {o : OptionView}
    (h : o ∈ buildOptions r) : 1 ≤ o.original_index ∧ o.original_index ≤ 4 := by
  rcases (mem_buildOptions_iff r o).1 h with ⟨j, -, rfl⟩
  simp only [mkOptionView]
  omega

/-- The dynamic `feedback_{k}` lookup succeeds for every `k` in 1..4. -/
theorem getFeedback_isSome (r : QuestionRow) (k : Nat) (h1 : 1 ≤ k) (h2 : k ≤ 4) :
    (getFeedback r k).isSome := by
  unfold getFeedback
  interval_cases k <;> simp

/-- Membership in the observer registration table. -/
theorem mem_registeredObserverKeys (i j : Nat) :
    (i, j) ∈ registeredObserverKeys ↔ i < 10 ∧ j < 4 := by
  simp only [registeredObserverKeys, List.mem_flatMap, List.mem_map, List.mem_range,
    Prod.mk.injEq]
  constructor
  · rintro ⟨a, ha, b, hb, rfl, rfl⟩
    exact ⟨ha, hb⟩
  · rintro ⟨hi, hj⟩
    exact ⟨i, hi, j, hj, rfl, rfl⟩

/-! ### Claim C9 -/

/-- Claim C9: option-click observers exist only for step indices 0..9 and
displayed positions 0..3; a click on any option button of the 11th or later
step reaches no observer, so the state is unchanged and nothing is emitted. -/
theorem option_observers_limited_to_ten_steps
    (df : List QuestionRow) (st : SessionState) (i j : Nat) :
    ((i, j) ∈ registeredObserverKeys ↔ i < 10 ∧ j < 4) ∧
    (10 ≤ i → handleOptionClick df st i j = .ok (st, [])) := by
  refine ⟨mem_registeredObserverKeys i j, fun hi => ?_⟩
  have hnot : (i, j) ∉ registeredObserverKeys := by
    rw [mem_registeredObserverKeys]
    omega
  simp [handleOptionClick, hnot]

/-- Witness for C9 at step index 10 (the 11th step). -/
theorem option_observers_limited_to_ten_steps_witness :
    ((10, 0) ∈ registeredObserverKeys ↔ 10 < 10 ∧ 0 < 4) ∧
    handleOptionClick [] sampleState 10 0 = .ok (sampleState, []) :=
  ⟨(option_observers_limited_to_ten_steps [] sampleState 10 0).1,
    (option_observers_limited_to_ten_steps [] sampleState 10 0).2 (by omega)⟩

/-! ### Claim C10 -/

/-- Claim C10: when a numeric value is present but no dataset row matches the
current (section, main question) pair, `check_numeric` has already stored the
submitted answer and units into session state before detecting the lookup
failure, and returns with `show_solution` and `feedback_text` unchanged. -/
theorem submit_answer_not_atomic_on_missing_question
    (df : List QuestionRow) (st : SessionState) (v : ℚ) (units : String)
    (hempty : qData df st.current_section st.current_question = []) :
    check_numeric df st (some v) units =
      ({ st with current_answer := some v, current_units := units }, []) := by
  simp [check_numeric, hempty]

/-- Witness for C10: empty dataset, concrete submission. -/
theorem submit_answer_not_atomic_on_missing_question_witness :
    check_numeric [] sampleState (some 10) "m/s" =
      ({ sampleState with current_answer := some 10, current_units := "m/s" }, []) :=
  submit_answer_not_atomic_on_missing_question [] sampleState 10 "m/s" rfl

/-! ### Claim C3 -/

/-- A row whose `correct_option` cell is missing (`pd.NA`). -/
def c3Row : QuestionRow := { sampleRow with correct_option := none }

/-- A state positioned on `c3Row` with its step entered (two valid options
are displayed). -/
def c3State : SessionState := { sampleState with current_order := buildOptions c3Row }

/-- Claim C3 (code bug): the claim says no user action ever raises an uncaught
exception, but clicking the first displayed option of a step whose row has an
absent `correct_option` evaluates `if is_correct and ...` on `pd.NA`, which
raises `TypeError: boolean value of NA is ambiguous` in the handler. -/
theorem option_click_raises_on_missing_correct_option :
    selectOption [c3Row] c3State 0 0 =
      .error "TypeError: boolean value of NA is ambiguous" := rfl

/-! ### Claim C8 -/

/-- A row whose `units` cell is the literal string `"Select units"`. -/
def c8Row : QuestionRow := { sampleRow with units := some "Select units" }

/-- Counterexample to C8 as stated: for the expected units string
`"Select units"` taken from a dataset row, the units check with the
placeholder selection evaluates to `true`, and a full submission with the
placeholder even reveals the solution. -/
theorem units_placeholder_matches_itself :
    unitsCheck "Select units" (some "Select units") = true ∧
    (check_numeric [c8Row] sampleState (some 10) "Select units").1.show_solution = true := by
  constructor <;> rfl

/-- Claim C8 (amended): for every expected units string other than the
literal placeholder `"Select units"`, the units check with the placeholder
selection evaluates to `false`; and the units comparison is an exact,
case-sensitive string equality. -/
theorem units_placeholder_never_matches_real_unit (expected : String)
    (h : expected ≠ "Select units") :
    unitsCheck "Select units" (some expected) = false ∧
    ∀ s u : String, (unitsCheck s (some u) = true ↔ s = u) := by
  refine ⟨?_, fun s u => by simp [unitsCheck]⟩
  simp only [unitsCheck, beq_eq_false_iff_ne, ne_eq]
  exact fun hh => h hh.symm

/-- Witness for the amended C8 at the real unit `"m/s"`. -/
theorem units_placeholder_never_matches_real_unit_witness :
    unitsCheck "Select units" (some "m/s") = false ∧
    ∀ s u : String, (unitsCheck s (some u) = true ↔ s = u) :=
  units_placeholder_never_matches_real_unit "m/s" (by decide)

/-! ### Claim C4 -/

/-- Claim C4: selecting a section name present in the dataset sets
`current_question` to the first `main_question` of that section in dataset
row order when the section has rows (and to the empty string otherwise), and
resets the downstream state (step index, solution flag, feedback, submitted
answer and units) in both cases. -/
theorem select_section_sets_first_main_question
    (df : List QuestionRow) (st : SessionState) (sec : String)
    (hsec : sec ∈ sections df) :
    ((selectSection df st sec).current_question =
      match df.filter (fun r => r.«section» == some sec) with
      | [] => ""
      | r :: _ => r.main_question) ∧
    (selectSection df st sec).current_section = sec ∧
    (selectSection df st sec).current_subq = 0 ∧
    (selectSection df st sec).show_solution = false ∧
    (selectSection df st sec).feedback_text = "" ∧
    (selectSection df st sec).current_answer = none ∧
    (selectSection df st sec).current_units = "Select units" := by
  unfold selectSection
  rw [if_pos hsec]
  cases hf : df.filter (fun r => r.«section» == some sec) with
  | nil => simp [dropDupByQn, reset_state]
  | cons r rs => simp [dropDupByQn, reset_state]

/-- Witness for C4 on a one-row dataset. -/
theorem select_section_sets_first_main_question_witness :
    ((selectSection [sampleRow] sampleState "Kinematics").current_question =
      match [sampleRow].filter (fun r => r.«section» == some "Kinematics") with
      | [] => ""
      | r :: _ => r.main_question) ∧
    (selectSection [sampleRow] sampleState "Kinematics").current_section = "Kinematics" ∧
    (selectSection [sampleRow] sampleState "Kinematics").current_subq = 0 ∧
    (selectSection [sampleRow] sampleState "Kinematics").show_solution = false ∧
    (selectSection [sampleRow] sampleState "Kinematics").feedback_text = "" ∧
    (selectSection [sampleRow] sampleState "Kinematics").current_answer = none ∧
    (selectSection [sampleRow] sampleState "Kinematics").current_units = "Select units" :=
  select_section_sets_first_main_question [sampleRow] sampleState "Kinematics" (by decide)

/-! ### Claim C7 -/

/-- Claim C7: against a row whose `min_value` exceeds its `max_value`, or
whose `min_value` or `max_value` is NaN/missing, the numeric range check is
`false` for every submitted value — no value passes — and the submission is
judged out of range (the checker is a total function, so nothing is thrown). -/
theorem invalid_range_rejects_every_value
    (df : List QuestionRow) (st : SessionState) (v : ℚ) (units : String)
    (row : QuestionRow) (rest : List QuestionRow)
    (hrow : qData df st.current_section st.current_question = row :: rest)
    (hbad : (∃ a b, row.min_value = some a ∧ row.max_value = some b ∧ b < a) ∨
      row.min_value = none ∨ row.max_value = none) :
    numericOk row v = false ∧
    (check_numeric df st (some v) units).1.show_solution = false ∧
    (check_numeric df st (some v) units).1.feedback_text =
      "Try again. Your answer is not within the acceptable range." := by
  have hnum : numericOk row v = false := by
    rcases hbad with ⟨a, b, ha, hb, hlt⟩ | h | h
    · by_cases h1 : a ≤ v
      · have h2 : ¬ v ≤ b := fun h2 => absurd (h1.trans h2) (not_le.2 hlt)
        simp [numericOk, naLe, ha, hb, h2]
      · simp [numericOk, naLe, ha, hb, h1]
    · simp [numericOk, naLe, h]
    · simp [numericOk, naLe, h]
  refine ⟨hnum, ?_, ?_⟩ <;> simp [check_numeric, hrow, hnum]

/-- Witness for C7 on a row with inverted bounds `[11, 9]`. -/
def c7Row : QuestionRow := { sampleRow with min_value := some 11, max_value := some 9 }

/-- Witness for C7: submitting 10 m/s against the inverted range `[11, 9]`. -/
theorem invalid_range_rejects_every_value_witness :
    numericOk c7Row 10 = false ∧
    (check_numeric [c7Row] sampleState (some 10) "m/s").1.show_solution = false ∧
    (check_numeric [c7Row] sampleState (some 10) "m/s").1.feedback_text =
      "Try again. Your answer is not within the acceptable range." :=
  invalid_range_rejects_every_value [c7Row] sampleState 10 "m/s" c7Row [] rfl
    (Or.inl ⟨11, 9, rfl, rfl, by norm_num⟩)

/-! ### Claim C1 -/

/-- Claim C1: for a submission whose numeric value is present and whose
(section, main question) pair matches at least one row, `show_solution` is
set to `true` exactly when `min_value ≤ v ≤ max_value` (inclusive) and the
selected units equal the row units string; the feedback text is the success
message in that case, a units-specific message when the value is in range but
the units mismatch, and the out-of-range message otherwise, regardless of
units. -/
theorem submit_answer_outcome
    (df : List QuestionRow) (st : SessionState) (v : ℚ) (units : String)
    (row : QuestionRow) (rest : List QuestionRow)
    (hrow : qData df st.current_section st.current_question = row :: rest) :
    (check_numeric df st (some v) units).1.show_solution =
      (numericOk row v && unitsCheck units row.units) ∧
    (∀ a b : ℚ, row.min_value = some a → row.max_value = some b →
      (numericOk row v = true ↔ a ≤ v ∧ v ≤ b)) ∧
    (numericOk row v = true → unitsCheck units row.units = true →
      (check_numeric df st (some v) units).1.feedback_text =
        "Correct! View the complete solution below.") ∧
    (numericOk row v = true → unitsCheck units row.units = false →
      (check_numeric df st (some v) units).1.show_solution = false ∧
      (check_numeric df st (some v) units).1.feedback_text =
        (if units == "Select units" then
          "Your numeric answer is correct! Please select the appropriate units."
        else
          "Your numeric answer is correct, but the units are incorrect. Try again!")) ∧
    (numericOk row v = false →
      (check_numeric df st (some v) units).1.show_solution = false ∧
      (check_numeric df st (some v) units).1.feedback_text =
        "Try again. Your answer is not within the acceptable range.") := by
  refine ⟨?_, ?_, ?_, ?_, ?_⟩
  · cases hn : numericOk row v <;> cases hu : unitsCheck units row.units <;>
      simp [check_numeric, hrow, hn, hu]
  · intro a b ha hb
    simp [numericOk, naLe, ha, hb]
  · intro hn hu
    simp [check_numeric, hrow, hn, hu]
  · intro hn hu
    simp [check_numeric, hrow, hn, hu]
  · intro hn
    simp [check_numeric, hrow, hn]

/-- Witness for C1: submitting 10 with units `"m/s"` against `sampleRow`. -/
theorem submit_answer_outcome_witness :
    (check_numeric [sampleRow] sampleState (some 10) "m/s").1.show_solution =
      (numericOk sampleRow 10 && unitsCheck "m/s" sampleRow.units) ∧
    (∀ a b : ℚ, sampleRow.min_value = some a → sampleRow.max_value = some b →
      (numericOk sampleRow 10 = true ↔ a ≤ 10 ∧ 10 ≤ b)) ∧
    (numericOk sampleRow 10 = true → unitsCheck "m/s" sampleRow.units = true →
      (check_numeric [sampleRow] sampleState (some 10) "m/s").1.feedback_text =
        "Correct! View the complete solution below.") ∧
    (numericOk sampleRow 10 = true → unitsCheck "m/s" sampleRow.units = false →
      (check_numeric [sampleRow] sampleState (some 10) "m/s").1.show_solution = false ∧
      (check_numeric [sampleRow] sampleState (some 10) "m/s").1.feedback_text =
        (if "m/s" == "Select units" then
          "Your numeric answer is correct! Please select the appropriate units."
        else
          "Your numeric answer is correct, but the units are incorrect. Try again!")) ∧
    (numericOk sampleRow 10 = false →
      (check_numeric [sampleRow] sampleState (some 10) "m/s").1.show_solution = false ∧
      (check_numeric [sampleRow] sampleState (some 10) "m/s").1.feedback_text =
        "Try again. Your answer is not within the acceptable range.") :=
  submit_answer_outcome [sampleRow] sampleState 10 "m/s" sampleRow [] rfl

/-! ### Claim C2 -/

/-- Claim C2: resolving a click against the stored shuffled option list, with
the clicked view, its feedback and the row's `correct_option` in hand: a
correct click strictly before the last step advances the step index by
exactly one and emits the progress notification; a correct click on the last
step leaves the index unchanged and emits the enter-final-answer
notification; an incorrect click leaves the whole session state unchanged
and emits the clicked option's feedback as a warning notification. -/
theorem option_click_transition
    (df : List QuestionRow) (st : SessionState) (sub_q opt : Nat)
    (sq_name : String) (row : QuestionRow) (rest : List QuestionRow)
    (clicked : OptionView) (fb : String) (c : Int)
    (hsq : (subQuestionsOf (qData df st.current_section st.current_question))[sub_q]? =
      some sq_name)
    (hrow : (qData df st.current_section st.current_question).filter
      (fun r => r.sub_question == sq_name) = row :: rest)
    (hopt : st.current_order[opt]? = some clicked)
    (hfb : getFeedback row clicked.original_index = some fb)
    (hc : row.correct_option = some c) :
    (((clicked.original_index : Int) = c ∧
        st.current_subq <
          (subQuestionsOf (qData df st.current_section st.current_question)).length - 1) →
      selectOption df st sub_q opt =
        .ok ({ st with current_subq := st.current_subq + 1 },
          [⟨"Correct! Moving to next step.", 3, "message"⟩])) ∧
    (((clicked.original_index : Int) = c ∧
        ¬ st.current_subq <
          (subQuestionsOf (qData df st.current_section st.current_question)).length - 1) →
      selectOption df st sub_q opt =
        .ok (st, [⟨"Correct! Please enter your final answer.", 3, "message"⟩])) ∧
    ((clicked.original_index : Int) ≠ c →
      selectOption df st sub_q opt = .ok (st, [⟨fb, 5, "warning"⟩])) := by
  have hred : selectOption df st sub_q opt =
      (if (clicked.original_index : Int) = c then
        if st.current_subq <
            (subQuestionsOf (qData df st.current_section st.current_question)).length - 1 then
          .ok ({ st with current_subq := st.current_subq + 1 },
            [⟨"Correct! Moving to next step.", 3, "message"⟩])
        else .ok (st, [⟨"Correct! Please enter your final answer.", 3, "message"⟩])
      else .ok (st, [⟨fb, 5, "warning"⟩])) := by
    simp only [selectOption, hsq, hrow, hopt, hfb, hc]
  refine ⟨?_, ?_, ?_⟩
  · rintro ⟨h1, h2⟩
    rw [hred, if_pos h1, if_pos h2]
  · rintro ⟨h1, h2⟩
    rw [hred, if_pos h1, if_neg h2]
  · intro h1
    rw [hred, if_neg h1]

/-- A second step row of the same main question, for a two-step witness. -/
def sampleRow2 : QuestionRow := { sampleRow with sub_question := "SQ2" }

/-- A two-step dataset for the C2 witness. -/
def twoStepDf : List QuestionRow := [sampleRow, sampleRow2]

/-- Witness for C2: clicking displayed option 0 (original index 1, incorrect)
of step 0 of a two-step question. -/
theorem option_click_transition_witness :
    ((((mkOptionView sampleRow 0).original_index : Int) = 2 ∧
        sampleState.current_subq <
          (subQuestionsOf (qData twoStepDf sampleState.current_section
            sampleState.current_question)).length - 1) →
      selectOption twoStepDf sampleState 0 0 =
        .ok ({ sampleState with current_subq := sampleState.current_subq + 1 },
          [⟨"Correct! Moving to next step.", 3, "message"⟩])) ∧
    ((((mkOptionView sampleRow 0).original_index : Int) = 2 ∧
        ¬ sampleState.current_subq <
          (subQuestionsOf (qData twoStepDf sampleState.current_section
            sampleState.current_question)).length - 1) →
      selectOption twoStepDf sampleState 0 0 =
        .ok (sampleState, [⟨"Correct! Please enter your final answer.", 3, "message"⟩])) ∧
    (((mkOptionView sampleRow 0).original_index : Int) ≠ 2 →
      selectOption twoStepDf sampleState 0 0 = .ok (sampleState, [⟨"fb1", 5, "warning"⟩])) :=
  option_click_transition twoStepDf sampleState 0 0 "SQ1" sampleRow []
    (mkOptionView sampleRow 0) "fb1" 2 rfl rfl rfl rfl rfl

/-! ### Claim C5 -/

/-- Claim C5: for every permutation of the step's valid options stored as the
current order, the judgment of a click is decided by the clicked view's
`original_index` alone: the click is judged correct (a "message"
notification) exactly when that `original_index` equals the row's
`correct_option`, and on any other option it is judged incorrect (state
unchanged, "warning" notification) — shuffling never changes which option is
correct. -/
theorem shuffle_preserves_correct_option
    (df : List QuestionRow) (st : SessionState) (sub_q opt : Nat)
    (sq_name : String) (row : QuestionRow) (rest : List QuestionRow)
    (clicked : OptionView) (c : Int)
    (hperm : st.current_order.Perm (buildOptions row))
    (hsq : (subQuestionsOf (qData df st.current_section st.current_question))[sub_q]? =
      some sq_name)
    (hrow : (qData df st.current_section st.current_question).filter
      (fun r => r.sub_question == sq_name) = row :: rest)
    (hopt : st.current_order[opt]? = some clicked)
    (hc : row.correct_option = some c) :
    ∃ st2 n, selectOption df st sub_q opt = .ok (st2, [n]) ∧
      ((n.ntype = "message") ↔ (clicked.original_index : Int) = c) ∧
      ((clicked.original_index : Int) ≠ c → st2 = st ∧ n.ntype = "warning") := by
  have hmem : clicked ∈ buildOptions row := hperm.mem_iff.1 (List.getElem?_mem hopt)
  have hidx := original_index_mem_buildOptions hmem
  obtain ⟨fb, hfb⟩ := Option.isSome_iff_exists.1
    (getFeedback_isSome row clicked.original_index hidx.1 hidx.2)
  have hred : selectOption df st sub_q opt =
      (if (clicked.original_index : Int) = c then
        if st.current_subq <
            (subQuestionsOf (qData df st.current_section st.current_question)).length - 1 then
          .ok ({ st with current_subq := st.current_subq + 1 },
            [⟨"Correct! Moving to next step.", 3, "message"⟩])
        else .ok (st, [⟨"Correct! Please enter your final answer.", 3, "message"⟩])
      else .ok (st, [⟨fb, 5, "warning"⟩])) := by
    simp only [selectOption, hsq, hrow, hopt, hfb, hc]
  by_cases hcc : (clicked.original_index : Int) = c
  · by_cases hlt : st.current_subq <
        (subQuestionsOf (qData df st.current_section st.current_question)).length - 1
    · exact ⟨_, _, by rw [hred, if_pos hcc, if_pos hlt],
        ⟨fun _ => hcc, fun _ => rfl⟩, fun h => absurd hcc h⟩
    · exact ⟨_, _, by rw [hred, if_pos hcc, if_neg hlt],
        ⟨fun _ => hcc, fun _ => rfl⟩, fun h => absurd hcc h⟩
  · exact ⟨st, ⟨fb, 5, "warning"⟩, by rw [hred, if_neg hcc],
      ⟨fun h => absurd (show ("warning" : String) = "message" from h) (by decide),
        fun h => absurd h hcc⟩, fun _ => ⟨rfl, rfl⟩⟩

/-- A state whose stored order is a nontrivial permutation (the reverse) of
the step's valid options. -/
def c5State : SessionState :=
  { sampleState with current_order := (buildOptions sampleRow).reverse }

/-- Witness for C5: under the reversed display order, position 0 holds the
option with original index 2, which is the correct one. -/
theorem shuffle_preserves_correct_option_witness :
    ∃ st2 n, selectOption [sampleRow] c5State 0 0 = .ok (st2, [n]) ∧
      ((n.ntype = "message") ↔ ((mkOptionView sampleRow 1).original_index : Int) = 2) ∧
      (((mkOptionView sampleRow 1).original_index : Int) ≠ 2 →
        st2 = c5State ∧ n.ntype = "warning") :=
  shuffle_preserves_correct_option [sampleRow] c5State 0 0 "SQ1" sampleRow []
    (mkOptionView sampleRow 1) 2 (List.reverse_perm _) rfl rfl rfl rfl

/-! ### Claim C6 -/

/-- Claim C6: two rebuilds of the same step's option list (two re-entries,
each an arbitrary shuffle of the filtered column list) are permutations of
the same multiset, and each contains exactly the views of the row's columns
whose text is not NaN and whose stripped, lower-cased text is not empty,
"nan" or "none" — blanks are excluded before shuffling, and only the order
may differ between the two entries. -/
theorem reentry_option_lists_same_multiset
    (row : QuestionRow) (l1 l2 : List OptionView)
    (h1 : l1.Perm (buildOptions row)) (h2 : l2.Perm (buildOptions row)) :
    l1.Perm l2 ∧
    (∀ o : OptionView, o ∈ l1 ↔
      ∃ j : Fin 4, isBlankOption (optionCol row j) = false ∧ o = mkOptionView row j) ∧
    (∀ o : OptionView, o ∈ l2 ↔
      ∃ j : Fin 4, isBlankOption (optionCol row j) = false ∧ o = mkOptionView row j) :=
  ⟨h1.trans h2.symm,
    fun o => h1.mem_iff.trans (mem_buildOptions_iff row o),
    fun o => h2.mem_iff.trans (mem_buildOptions_iff row o)⟩

/-- Witness for C6: the identity and reversed shuffles of `sampleRow`'s
options. -/
theorem reentry_option_lists_same_multiset_witness :
    (buildOptions sampleRow).Perm ((buildOptions sampleRow).reverse) ∧
    (∀ o : OptionView, o ∈ buildOptions sampleRow ↔
      ∃ j : Fin 4, isBlankOption (optionCol sampleRow j) = false ∧
        o = mkOptionView sampleRow j) ∧
    (∀ o : OptionView, o ∈ (buildOptions sampleRow).reverse ↔
      ∃ j : Fin 4, isBlankOption (optionCol sampleRow j) = false ∧
        o = mkOptionView sampleRow j) :=
  reentry_option_lists_same_multiset sampleRow (buildOptions sampleRow)
    ((buildOptions sampleRow).reverse) (List.Perm.refl _) (List.reverse_perm _)
